import Mathlib

/-!
Verification of the partner/ambassador referral-commerce backend.

The repository is a set of Express route handlers over a Firestore document
store plus a Stripe transfer client.  Each relevant handler is embedded below
as a pure Lean function: the documents the handler fetches are passed in as
`Option` values or lists (a `none` models a missing document), the outcome of
the external Stripe transfer call is passed in as `Option String` (a `none`
models the call throwing), and the handler returns its HTTP-level response
together with the updated documents.  Money amounts are `Rat` (the source
uses JS numbers with decimal-currency intent), timestamps are `Int`
(milliseconds), and document ids / code strings are `String`.

Two route variants exist in the repository: the main variant (the large
unnamed source file, whose ambassador/partner routes are
/api/ambassador/approvePayout, /api/referralCode/use/:code, ...) and the
korpo.js variant (/api/approvePayoutForAmbassador, /api/promoCode/use/:code,
...).  Both are embedded where claims cite both.
-/

/-- JS date coercion used by the korpo.js validate route: `new Date(null)` is
the epoch, so a missing timestamp compares as 0. -/
def jsDate (t : Option Int) : Int := t.getD 0

/-- JS relational coercion used by the korpo.js validate route:
`a >= null` compares `a >= 0` (null coerces to the number 0). -/
def jsGeOpt (a : Int) : Option Int → Bool
  | some b => a ≥ b
  | none => a ≥ 0

/-- Updates the first element of a list satisfying `p` (the Firestore pattern
of updating the document returned by `snapshot.docs[0]`). -/
def updateFirst {α : Type} (p : α → Bool) (f : α → α) : List α → List α
  | [] => []
  | x :: xs => if p x then f x :: xs else x :: updateFirst p f xs

/-- Point lookup of a document by id in an association-list store. -/
def lookupDoc {α : Type} (store : List (String × α)) (k : String) : Option α :=
  (store.find? (fun kv => kv.fst == k)).map Prod.snd

/-- Partial-field update of the document with id `k` in an association-list
store (no-op when the document is absent). -/
def updateDocIn {α : Type} (store : List (String × α)) (k : String) (f : α → α) :
    List (String × α) :=
  updateFirst (fun kv => kv.fst == k) (fun kv => (kv.fst, f kv.snd)) store

/-- Ambassador document (Firestore collection "ambassadors"); the fields the
embedded routes read or write.  `commissionRate` is `Option` because the
routes guard it with `?? 0.1`; `connectAccountId` models
`ambassador.stripe.connectAccountId`. -/
structure Ambassador where
  commissionRate : Option Rat
  commissionEarned : Rat
  availableBalance : Rat
  totalAmbassadorRevenue : Rat
  totalReferrals : Int
  connectAccountId : Option String
  lastPayoutAt : Option Int
  lastReferralUsedAt : Option Int
  deriving Repr, DecidableEq

/-- Partner document (Firestore collection "partners"); the fields the
embedded routes read or write.  `commission` is the korpo.js commission field
(a percentage); `commissionRate` is the main-variant field (a decimal
fraction); both are `Option` because the routes guard them with
`!== undefined`. -/
structure Partner where
  commission : Option Rat
  commissionRate : Option Rat
  commissionEarned : Rat
  availableBalance : Rat
  totalPartnerRevenue : Rat
  totalDiscountGiven : Rat
  timesUsed : Int
  leftPromo : Option Int
  totalPromo : Option Int
  connectAccountId : Option String
  lastPayoutAt : Option Int
  lastUpdated : Option Int
  deriving Repr, DecidableEq

/-- Payout request document (collections "ambassadorPayouts" /
"partnerPayouts"). -/
structure PayoutRequest where
  referrerId : String
  connectedAccountId : String
  amount : Rat
  status : String
  transferId : Option String
  approvedAt : Option Int
  cancelledAt : Option Int
  deriving Repr, DecidableEq

/-- Response of the payout request routes. -/
inductive RequestResp where
  | referrerNotFound
  | accountMismatch
  | noBalance
  | success (amount : Rat)
  deriving Repr, DecidableEq

/-- Response of the payout approval routes. -/
inductive PayoutResp where
  | requestNotFound
  | alreadyProcessed
  | referrerNotFound
  | noBalance
  | transferFailed
  | success (amountCents : Int)
  deriving Repr, DecidableEq

/-- Result of a payout approval route: the response, the payout request and
referrer documents as left in the store, and the amounts (in minor currency
units) of the Stripe transfer calls the handler invoked. -/
structure ApproveOut (ρ : Type) where
  resp : PayoutResp
  request : Option PayoutRequest
  referrer : Option ρ
  transferCalls : List Int
  deriving Repr, DecidableEq

/-- Main variant, POST /api/ambassador/approvePayout.  Fetches the request,
rejects a non-pending one, re-reads the ambassador document, takes the
CURRENT availableBalance as the payout amount, rejects a non-positive one,
rounds to integer cents, invokes the Stripe transfer, and only after the
transfer returned does it flip the request to approved, record the transfer
id and zero the availableBalance.  A `none` for `transferResult` models the
transfer call throwing: the handler then falls into its catch block with no
document written. -/
def ambassadorApprovePayout (req? : Option PayoutRequest) (amb? : Option Ambassador)
    (transferResult : Option String) (now : Int) : ApproveOut Ambassador :=
  match req? with
  | none => ⟨.requestNotFound, none, amb?, []⟩
  | some req =>
    if req.status ≠ "pending" then ⟨.alreadyProcessed, some req, amb?, []⟩
    else
      match amb? with
      | none => ⟨.referrerNotFound, some req, none, []⟩
      | some amb =>
        let payoutAmount := amb.availableBalance
        if payoutAmount ≤ 0 then ⟨.noBalance, some req, some amb, []⟩
        else
          let amountInCents : Int := round (payoutAmount * 100)
          match transferResult with
          | none => ⟨.transferFailed, some req, some amb, [amountInCents]⟩
          | some tid =>
            ⟨.success amountInCents,
             some { req with status := "approved", approvedAt := some now,
                             transferId := some tid },
             some { amb with availableBalance := 0, lastPayoutAt := some now },
             [amountInCents]⟩

/-- korpo.js, POST /api/approvePayoutForAmbassador.  Same checks, but the
payout amount is `ambassador.commissionEarned * 0.10` (not the re-read
availableBalance), and on success only the request document is updated: the
ambassador document is never written. -/
def approvePayoutForAmbassador (req? : Option PayoutRequest) (amb? : Option Ambassador)
    (transferResult : Option String) (now : Int) : ApproveOut Ambassador :=
  match req? with
  | none => ⟨.requestNotFound, none, amb?, []⟩
  | some req =>
    if req.status ≠ "pending" then ⟨.alreadyProcessed, some req, amb?, []⟩
    else
      match amb? with
      | none => ⟨.referrerNotFound, some req, none, []⟩
      | some amb =>
        let payoutAmount := amb.commissionEarned * (0.10 : Rat)
        if payoutAmount ≤ 0 then ⟨.noBalance, some req, some amb, []⟩
        else
          let amountInCents : Int := round (payoutAmount * 100)
          match transferResult with
          | none => ⟨.transferFailed, some req, some amb, [amountInCents]⟩
          | some tid =>
            ⟨.success amountInCents,
             some { req with status := "approved", approvedAt := some now,
                             transferId := some tid },
             some amb,
             [amountInCents]⟩

/-- korpo.js, POST /api/approvePayoutForPartner.  Identical to the ambassador
version with the partner document: payout is `partner.commissionEarned * 0.10`
and the partner document is never written. -/
def approvePayoutForPartner (req? : Option PayoutRequest) (partner? : Option Partner)
    (transferResult : Option String) (now : Int) : ApproveOut Partner :=
  match req? with
  | none => ⟨.requestNotFound, none, partner?, []⟩
  | some req =>
    if req.status ≠ "pending" then ⟨.alreadyProcessed, some req, partner?, []⟩
    else
      match partner? with
      | none => ⟨.referrerNotFound, some req, none, []⟩
      | some p =>
        let payoutAmount := p.commissionEarned * (0.10 : Rat)
        if payoutAmount ≤ 0 then ⟨.noBalance, some req, some p, []⟩
        else
          let amountInCents : Int := round (payoutAmount * 100)
          match transferResult with
          | none => ⟨.transferFailed, some req, some p, [amountInCents]⟩
          | some tid =>
            ⟨.success amountInCents,
             some { req with status := "approved", approvedAt := some now,
                             transferId := some tid },
             some p,
             [amountInCents]⟩

/-- korpo.js, POST /api/requestPayoutForAmbassador.  Checks the linked
account, snapshots `commissionEarned` as the requested amount and creates a
pending request. -/
def requestPayoutForAmbassador (amb? : Option Ambassador)
    (ambassadorId connectedAccountId : String) :
    RequestResp × Option PayoutRequest :=
  match amb? with
  | none => (.referrerNotFound, none)
  | some amb =>
    if amb.connectAccountId ≠ some connectedAccountId then (.accountMismatch, none)
    else
      let balance := amb.commissionEarned
      if balance ≤ 0 then (.noBalance, none)
      else (.success balance,
            some ⟨ambassadorId, connectedAccountId, balance, "pending", none, none, none⟩)

/-- One request-then-approve cycle of the korpo.js ambassador payout routes:
returns the transfer amount in cents and the ambassador document after the
cycle, or `none` when either step failed. -/
def korpoAmbassadorCycle (ambassadorId acct tid : String) (now : Int)
    (amb : Ambassador) : Option (Int × Ambassador) :=
  match requestPayoutForAmbassador (some amb) ambassadorId acct with
  | (_, none) => none
  | (_, some req) =>
    let out := approvePayoutForAmbassador (some req) (some amb) (some tid) now
    match out.resp, out.referrer with
    | .success c, some amb2 => some (c, amb2)
    | _, _ => none

/-- Iterated request-then-approve cycles of the korpo.js ambassador payout
routes. -/
def korpoAmbassadorCycles (ambassadorId acct tid : String) (now : Int) :
    Nat → Ambassador → Option (List Int × Ambassador)
  | 0, amb => some ([], amb)
  | n + 1, amb =>
    match korpoAmbassadorCycle ambassadorId acct tid now amb with
    | none => none
    | some (c, amb2) =>
      match korpoAmbassadorCycles ambassadorId acct tid now n amb2 with
      | none => none
      | some (cs, ambf) => some (c :: cs, ambf)

/-- Promo code document (korpo.js collection "partnerPromoCodes", main-variant
collection "promoCodes").  `discountPercentage` is the korpo.js discount field
(a percentage); `discountRate` is the main-variant field (a decimal
fraction). -/
structure Promo where
  partnerId : Option String
  code : String
  discountPercentage : Option Rat
  discountRate : Option Rat
  validFrom : Option Int
  validTo : Option Int
  usageLimit : Option Int
  timesUsed : Int
  status : String
  deriving Repr, DecidableEq

/-- Promo usage tracking record (collection "partnerTracking"); immutable once
written. -/
structure Tracking where
  userId : String
  promoCode : String
  partnerId : Option String
  usedAt : Int
  originalAmount : Rat
  discountPercentage : Rat
  discountAmount : Rat
  finalAmount : Rat
  companyRevenue : Rat
  partnerRevenue : Rat
  partnerSharePercentage : Rat
  deriving Repr, DecidableEq

/-- Response of GET /api/promoCode/validate/:code. -/
inductive ValidateResp where
  | notFound
  | expired
  | usageLimitReached
  | valid (discount : Option Rat)
  deriving Repr, DecidableEq

/-- korpo.js, GET /api/promoCode/validate/:code.  Looks the promo up by its
code string, checks the validity window with raw JS date coercions, then
checks `promo.timesUsed >= promo.usageLimit` WITHOUT a null guard: when
usageLimit is null, JS compares timesUsed >= 0. -/
def validatePromoCode (promos : List Promo) (codeStr : String) (now : Int) :
    ValidateResp :=
  match promos.find? (fun p => p.code == codeStr) with
  | none => .notFound
  | some promo =>
    if now < jsDate promo.validFrom ∨ now > jsDate promo.validTo then .expired
    else if jsGeOpt promo.timesUsed promo.usageLimit then .usageLimitReached
    else .valid promo.discountPercentage

/-- Null-guarded usage-limit check of the promo redemption routes:
`usageLimit !== null && usageLimit !== undefined && timesUsed >= usageLimit`. -/
def promoLimitReached (promo : Promo) : Bool :=
  match promo.usageLimit with
  | some l => promo.timesUsed ≥ l
  | none => false

/-- Response of the promo-code redemption routes. -/
inductive UseResp where
  | userNotFound
  | codeNotFound
  | usageLimitExceeded
  | success (finalAmount partnerRevenue companyRevenue : Rat)
  deriving Repr, DecidableEq

/-- State carried by the promo-code redemption routes: the promo collection,
the tracking collection and the partner store. -/
structure PromoUseOut where
  resp : UseResp
  promos : List Promo
  tracking : List Tracking
  partners : List (String × Partner)
  deriving Repr, DecidableEq

/-- Partner share resolution of korpo.js /api/promoCode/use/:code: the
stored `commission` field when the partner document has one, else the
fallback constant 30 (a percentage, divided by 100 at use site). -/
def partnerSharePercentKorpo (partners : List (String × Partner))
    (pid? : Option String) : Rat :=
  match pid? with
  | none => 30
  | some pid =>
    match lookupDoc partners pid with
    | none => 30
    | some p => p.commission.getD 30

/-- Partner share resolution of the main-variant /api/promoCode/use/:code:
the stored `commissionRate` field (a decimal fraction) when the partner
document has one, else the fallback constant 30 used as a RAW multiplier. -/
def partnerShareMain (partners : List (String × Partner))
    (pid? : Option String) : Rat :=
  match pid? with
  | none => 30
  | some pid =>
    match lookupDoc partners pid with
    | none => 30
    | some p => p.commissionRate.getD 30

/-- korpo.js, POST /api/promoCode/use/:code.  Checks the user exists, finds
the promo by code, checks the usage limit (null-guarded), computes the
discount and the revenue split, increments timesUsed, appends a tracking
record and updates the partner document.  NOTE: the route never checks the
tracking collection for a prior redemption by the same user. -/
def usePromoCode (userExists : Bool) (promos : List Promo) (tracking : List Tracking)
    (partners : List (String × Partner)) (userId codeStr : String) (amount : Rat)
    (now : Int) : PromoUseOut :=
  if !userExists then ⟨.userNotFound, promos, tracking, partners⟩
  else
    match promos.find? (fun p => p.code == codeStr) with
    | none => ⟨.codeNotFound, promos, tracking, partners⟩
    | some promo =>
      if promoLimitReached promo then
        ⟨.usageLimitExceeded, promos, tracking, partners⟩
      else
        let discountPercentage := promo.discountPercentage.getD 0
        let discountAmount := amount * discountPercentage / 100
        let finalAmount := amount - discountAmount
        let pct := partnerSharePercentKorpo partners promo.partnerId
        let partnerRevenue := finalAmount * pct / 100
        let companyRevenue := finalAmount - partnerRevenue
        let promos2 := updateFirst (fun p => p.code == codeStr)
          (fun p => { p with timesUsed := p.timesUsed + 1 }) promos
        let tracking2 := tracking ++
          [⟨userId, codeStr, promo.partnerId, now, amount, discountPercentage,
            discountAmount, finalAmount, companyRevenue, partnerRevenue, pct⟩]
        let partners2 :=
          match promo.partnerId with
          | none => partners
          | some pid =>
            match lookupDoc partners pid with
            | none => partners
            | some _ =>
              let timesUsed2 := promo.timesUsed + 1
              let usageLimitN := promo.usageLimit.getD 0
              updateDocIn partners pid (fun p =>
                { p with
                  lastUpdated := some now,
                  totalPartnerRevenue := p.totalPartnerRevenue + partnerRevenue,
                  timesUsed := timesUsed2,
                  leftPromo := if usageLimitN > 0 then some (usageLimitN - timesUsed2) else none,
                  totalPromo := if usageLimitN > 0 then some usageLimitN else none })
        ⟨.success finalAmount partnerRevenue companyRevenue, promos2, tracking2, partners2⟩

/-- Main variant, POST /api/promoCode/use/:code.  Same shape as the korpo.js
route but the discount field is the decimal `discountRate` used without a
division by 100, the partner share is `commissionRate` (or the raw fallback
30) used without a division by 100, and the partner update additionally
increments availableBalance and totalDiscountGiven.  It also performs no
duplicate-redemption check. -/
def usePromoCodeMain (userExists : Bool) (promos : List Promo) (tracking : List Tracking)
    (partners : List (String × Partner)) (userId codeStr : String) (amount : Rat)
    (now : Int) : PromoUseOut :=
  if !userExists then ⟨.userNotFound, promos, tracking, partners⟩
  else
    match promos.find? (fun p => p.code == codeStr) with
    | none => ⟨.codeNotFound, promos, tracking, partners⟩
    | some promo =>
      if promoLimitReached promo then
        ⟨.usageLimitExceeded, promos, tracking, partners⟩
      else
        let discountPercentage := promo.discountRate.getD 0
        let discountAmount := amount * discountPercentage
        let finalAmount := amount - discountAmount
        let pct := partnerShareMain partners promo.partnerId
        let partnerRevenue := finalAmount * pct
        let companyRevenue := finalAmount - partnerRevenue
        let promos2 := updateFirst (fun p => p.code == codeStr)
          (fun p => { p with timesUsed := p.timesUsed + 1 }) promos
        let tracking2 := tracking ++
          [⟨userId, codeStr, promo.partnerId, now, amount, discountPercentage,
            discountAmount, finalAmount, companyRevenue, partnerRevenue, pct⟩]
        let partners2 :=
          match promo.partnerId with
          | none => partners
          | some pid =>
            match lookupDoc partners pid with
            | none => partners
            | some _ =>
              let timesUsed2 := promo.timesUsed + 1
              let usageLimitN := promo.usageLimit.getD 0
              updateDocIn partners pid (fun p =>
                { p with
                  lastUpdated := some now,
                  totalPartnerRevenue := p.totalPartnerRevenue + partnerRevenue,
                  availableBalance := p.availableBalance + partnerRevenue,
                  totalDiscountGiven := p.totalDiscountGiven + discountAmount,
                  timesUsed := timesUsed2,
                  leftPromo := if usageLimitN > 0 then some (usageLimitN - timesUsed2) else none,
                  totalPromo := if usageLimitN > 0 then some usageLimitN else none })
        ⟨.success finalAmount partnerRevenue companyRevenue, promos2, tracking2, partners2⟩

/-- Referral code document (main-variant collection "referralCodes"). -/
structure Referral where
  ambassadorId : Option String
  referralCode : String
  status : String
  validFrom : Option Int
  validTo : Option Int
  usageLimit : Option Int
  timesUsed : Int
  deriving Repr, DecidableEq

/-- Referral usage tracking record (collection "referralTracking"); immutable
once written. -/
structure RefTracking where
  userId : String
  ambassadorId : Option String
  referralCode : String
  usedAt : Int
  amount : Option Rat
  commissionRate : Rat
  commissionEarned : Rat
  deriving Repr, DecidableEq

/-- Response of POST /api/referralCode/use/:code. -/
inductive RefUseResp where
  | userNotFound
  | codeNotFound
  | notActive
  | notYetValid
  | expired
  | usageLimitReached
  | alreadyRedeemed
  | updateError
  | success (commissionEarned commissionRate : Rat)
  deriving Repr, DecidableEq

/-- Store state touched by the referral redemption route. -/
structure RefState where
  referrals : List Referral
  tracking : List RefTracking
  ambassadors : List (String × Ambassador)
  deriving Repr, DecidableEq

/-- Result of the referral redemption route. -/
structure RefUseOut where
  resp : RefUseResp
  state : RefState
  deriving Repr, DecidableEq

/-- Not-yet-valid check of the referral route:
`referralData.validFrom && new Date(referralData.validFrom) > now`. -/
def refBeforeWindow (r : Referral) (now : Int) : Bool :=
  match r.validFrom with
  | some f => now < f
  | none => false

/-- Expiry check of the referral route:
`referralData.validTo && new Date(referralData.validTo) < now`. -/
def refAfterWindow (r : Referral) (now : Int) : Bool :=
  match r.validTo with
  | some t => t < now
  | none => false

/-- Null-guarded usage-limit check of the referral route. -/
def refLimitReached (r : Referral) : Bool :=
  match r.usageLimit with
  | some l => r.timesUsed ≥ l
  | none => false

/-- Duplicate-redemption check of the referral route: a prior tracking record
with the same userId and referralCode. -/
def alreadyUsed (tracking : List RefTracking) (userId codeStr : String) : Bool :=
  tracking.any (fun t => t.userId == userId && t.referralCode == codeStr)

/-- Main variant, POST /api/referralCode/use/:code.  Checks the user exists,
finds the referral code, checks status / validity window / usage limit, then
rejects a duplicate (userId, code) redemption; on success increments
timesUsed, appends a tracking record and updates the ambassador profile.
`amount` is optional in the route; the commissionEarned increment on the
ambassador only happens when amount is truthy.  When the referral names an
ambassadorId whose document is missing, the final updateDoc throws AFTER the
increment and the tracking write (modeled by `updateError`). -/
def referralCodeUse (userExists : Bool) (st : RefState) (userId codeStr : String)
    (amount : Option Rat) (now : Int) : RefUseOut :=
  if !userExists then ⟨.userNotFound, st⟩
  else
    match st.referrals.find? (fun r => r.referralCode == codeStr) with
    | none => ⟨.codeNotFound, st⟩
    | some r =>
      if r.status ≠ "active" then ⟨.notActive, st⟩
      else if refBeforeWindow r now then ⟨.notYetValid, st⟩
      else if refAfterWindow r now then ⟨.expired, st⟩
      else if refLimitReached r then ⟨.usageLimitReached, st⟩
      else if alreadyUsed st.tracking userId codeStr then ⟨.alreadyRedeemed, st⟩
      else
        let amb? := r.ambassadorId.bind (lookupDoc st.ambassadors)
        let commissionRate := (amb?.bind (fun a => a.commissionRate)).getD (0.1 : Rat)
        let commissionEarned := match amount with
          | some a => a * commissionRate
          | none => 0
        let referrals2 := updateFirst (fun x => x.referralCode == codeStr)
          (fun x => { x with timesUsed := x.timesUsed + 1 }) st.referrals
        let tracking2 := st.tracking ++
          [⟨userId, r.ambassadorId, codeStr, now, amount, commissionRate,
            commissionEarned⟩]
        match r.ambassadorId with
        | none => ⟨.success commissionEarned commissionRate,
                   ⟨referrals2, tracking2, st.ambassadors⟩⟩
        | some aid =>
          match lookupDoc st.ambassadors aid with
          | none => ⟨.updateError, ⟨referrals2, tracking2, st.ambassadors⟩⟩
          | some _ =>
            let amountTruthy : Bool := match amount with
              | some a => a != 0
              | none => false
            let ambassadors2 := updateDocIn st.ambassadors aid (fun a =>
              { a with
                totalReferrals := a.totalReferrals + 1,
                totalAmbassadorRevenue := a.totalAmbassadorRevenue + commissionEarned,
                availableBalance := a.availableBalance + commissionEarned,
                commissionEarned :=
                  if amountTruthy then a.commissionEarned + commissionEarned
                  else a.commissionEarned,
                lastReferralUsedAt := some now })
            ⟨.success commissionEarned commissionRate,
             ⟨referrals2, tracking2, ambassadors2⟩⟩

/-- Sequential runs of the referral redemption route over a list of requests
(userExists flag, userId, optional amount, time). -/
def referralRuns (inputs : List (Bool × String × Option Rat × Int))
    (codeStr : String) (st : RefState) : RefState :=
  inputs.foldl (fun s i => (referralCodeUse i.1 s i.2.1 codeStr i.2.2.1 i.2.2.2).state) st

/-- Fixed 100-day activation window, in milliseconds
(`validTo.setDate(validFrom.getDate() + 100)`). -/
def day100 : Int := 100 * 86400000

/-- Main variant, POST /api/partner/:partnerId/updateStatus, approved branch,
promo document update: sets the code string and status active, and sets
validFrom (resp. validTo) to now (resp. now + 100 days) ONLY when the
existing field is unset; an existing value is never overwritten, expired or
not. -/
def partnerApprovePromoUpdate (promo : Promo) (partnerPromoCode : String)
    (now : Int) : Promo :=
  { promo with
    code := partnerPromoCode,
    status := "active",
    validFrom := match promo.validFrom with
      | none => some now
      | some f => some f,
    validTo := match promo.validTo with
      | none => some (now + day100)
      | some t => some t }

/-- Main variant, POST /api/ambassador/updateStatus, approved branch, referral
document update: sets status active, and resets validFrom / validTo to now /
now + 100 days exactly when one of them is unset or the window has expired
(`!finalValidFrom || !finalValidTo || new Date(finalValidTo) < now`);
otherwise both are kept. -/
def ambassadorApproveReferralUpdate (r : Referral) (now : Int) : Referral :=
  match r.validFrom, r.validTo with
  | some f, some t =>
    if t < now then
      { r with status := "active", validFrom := some now, validTo := some (now + day100) }
    else
      { r with status := "active", validFrom := some f, validTo := some t }
  | _, _ =>
    { r with status := "active", validFrom := some now, validTo := some (now + day100) }

/-- State of the while-loop generating a unique ambassador referral code. -/
inductive AmbGen where
  | running (finalCode : String)
  | done (code : String)
  | duplicateError
  deriving Repr, DecidableEq

/-- One iteration of the code-generation while-loop of the main-variant
POST /api/ambassador/submitApplication.  `suffix` is the deterministic
candidate suffix `userId.slice(-4).toUpperCase()` and `existing` the corpus
of taken referral codes; `preferredGiven` records whether the caller supplied
a referralCode (in which case a collision returns an error instead of
regenerating).  The loop has NO attempt counter, and the synthesized
candidate is always the same string. -/
def ambassadorGenStep (existing : List String) (suffix : String)
    (preferredGiven : Bool) : AmbGen → AmbGen
  | .running code =>
    let code2 := if code = "" then "AMB" ++ suffix else code
    if code2 ∈ existing then
      (if preferredGiven then .duplicateError else .running "")
    else .done code2
  | s => s

/-- Iterated ambassador code-generation loop. -/
def ambassadorGenIter (existing : List String) (suffix : String)
    (preferredGiven : Bool) (init : AmbGen) : Nat → AmbGen
  | 0 => init
  | n + 1 => ambassadorGenStep existing suffix preferredGiven
      (ambassadorGenIter existing suffix preferredGiven init n)

/-- Bounded code-generation loop of the main-variant
POST /api/partner/submitApplication (`while (!isUnique && attempts < 5)`).
`cands` is the stream of synthesized random candidates
(`PRM + suffix + random digits`), consumed one per regeneration; `fuel` is
the remaining attempt budget; `code` is the current candidate, the empty
string standing for a still-unsynthesized one.  Returns `none` when the five
attempts are exhausted without a collision-free candidate. -/
def partnerGenLoop (existing : List String) (cands : Nat → String) :
    String → Nat → Nat → Option String
  | _, _, 0 => none
  | code, i, fuel + 1 =>
    let code2 := if code = "" then cands i else code
    let i2 := if code = "" then i + 1 else i
    if code2 ∈ existing then partnerGenLoop existing cands "" i2 fuel
    else some code2

/-- Main variant, partner promo-code generation: the preferred code when
given, else synthesized candidates, at most 5 attempts. -/
def partnerGenerateCode (existing : List String) (preferred : Option String)
    (cands : Nat → String) : Option String :=
  partnerGenLoop existing cands (preferred.getD "") 0 5

/-- Referrer and request documents used in concrete payout scenarios. -/
def scenarioAmb : Ambassador := ⟨some 0.1, 150.456, 150.456, 0, 0, some "acct_1", none, none⟩

/-- Pending payout request used in concrete payout scenarios. -/
def scenarioReq : PayoutRequest := ⟨"amb_1", "acct_1", 150.456, "pending", none, none, none⟩

/-- Partner document used in concrete korpo payout scenarios. -/
def scenarioPartner : Partner :=
  ⟨some 30, some 0.3, 150.456, 150.456, 150.456, 0, 0, none, none, some "acct_1", none, none⟩

/-- Per-code bound: timesUsed does not exceed a non-null usageLimit. -/
def withinLimit (r : Referral) : Bool :=
  match r.usageLimit with
  | some l => r.timesUsed ≤ l
  | none => true

/-- Store-wide usage-limit invariant over the referral code collection. -/
def usageInvariant (rs : List Referral) : Prop := ∀ r ∈ rs, withinLimit r = true

/-- Number of redemption tracking records for a (user, referral code) pair. -/
def pairCount (tracking : List RefTracking) (u c : String) : Nat :=
  tracking.countP (fun t => t.userId == u && t.referralCode == c)

/-- Referral code at its usage limit, used in concrete scenarios. -/
def limitReferral : Referral := ⟨some "amb_1", "AMBX", "active", some 0, some 1000000, some 1, 1⟩

/-- Referral store used in concrete scenarios: one code at its limit, one
prior redemption by user u1. -/
def limitState : RefState :=
  ⟨[limitReferral],
   [⟨"u1", some "amb_1", "AMBX", 3, some 10, 0.1, 1⟩],
   [("amb_1", scenarioAmb)]⟩

/-- Promo code and partner documents used in the duplicate-promo scenario. -/
def dupPromo : Promo := ⟨some "p1", "PROMO1", some 20, none, none, none, some 10, 0, "active"⟩

/-- Partner document used in the duplicate-promo scenario. -/
def dupPartner : Partner := ⟨some 30, some 0.3, 0, 0, 0, 0, 0, none, none, none, none, none⟩

/-- Number of tracking records for a (user, promo code) pair. -/
def promoPairCount (tracking : List Tracking) (u c : String) : Nat :=
  tracking.countP (fun t => t.userId == u && t.promoCode == c)

/-- Promo code with null usageLimit and a currently-valid window. -/
def nolimitPromo : Promo := ⟨none, "NOLIMIT", some 10, none, some 0, some 1000, none, 0, "active"⟩

/-- Promo code of the spec scenario: 20 percent discount stored as the
decimal 0.2. -/
def scenarioPromo : Promo :=
  ⟨some "p1", "PROMO1", none, some 0.2, some 0, some 100000, some 100, 0, "active"⟩

/-- Still-valid referral window used in the C8 witness. -/
def windowReferral : Referral := ⟨some "amb_1", "AMBX", "approved", some 100, some 5000, some 100, 0⟩

/-- Per-code bound for promo codes: timesUsed does not exceed a non-null
usageLimit. -/
def promoWithinLimit (p : Promo) : Bool :=
  match p.usageLimit with
  | some l => p.timesUsed ≤ l
  | none => true

/-- Store-wide usage-limit invariant over a promo code collection. -/
def promoUsageInvariant (ps : List Promo) : Prop :=
  ∀ p ∈ ps, promoWithinLimit p = true

/-- Sequential runs of the korpo.js promo redemption route over a list of
requests (userExists flag, userId, amount, time). -/
def promoRuns (inputs : List (Bool × String × Rat × Int)) (c : String) :
    List Promo × List Tracking × List (String × Partner) →
    List Promo × List Tracking × List (String × Partner) :=
  fun st => inputs.foldl (fun s i =>
    let o := usePromoCode i.1 s.1 s.2.1 s.2.2 i.2.1 c i.2.2.1 i.2.2.2
    (o.promos, o.tracking, o.partners)) st

theorem ambassadorApprovePayout_eq_of_pending (req : PayoutRequest) (amb : Ambassador)
    (tid : String) (now : Int) (hp : req.status = "pending")
    (hb : 0 < amb.availableBalance) :
    ambassadorApprovePayout (some req) (some amb) (some tid) now =
      ⟨.success (round (amb.availableBalance * 100)),
       some { req with status := "approved", approvedAt := some now,
                       transferId := some tid },
       some { amb with availableBalance := 0, lastPayoutAt := some now },
       [round (amb.availableBalance * 100)]⟩ := by
  simp [ambassadorApprovePayout, hp, hb.not_le]

theorem approvePayoutForAmbassador_eq_of_pending (req : PayoutRequest) (amb : Ambassador)
    (tid : String) (now : Int) (hp : req.status = "pending")
    (hb : 0 < amb.commissionEarned) :
    approvePayoutForAmbassador (some req) (some amb) (some tid) now =
      ⟨.success (round (amb.commissionEarned * (0.10 : Rat) * 100)),
       some { req with status := "approved", approvedAt := some now,
                       transferId := some tid },
       some amb,
       [round (amb.commissionEarned * (0.10 : Rat) * 100)]⟩ := by
  have h2 : ¬ amb.commissionEarned * (0.10 : Rat) ≤ 0 :=
    (mul_pos hb (by norm_num)).not_le
  simp [approvePayoutForAmbassador, hp, h2]

theorem approvePayoutForPartner_eq_of_pending (req : PayoutRequest) (p : Partner)
    (tid : String) (now : Int) (hp : req.status = "pending")
    (hb : 0 < p.commissionEarned) :
    approvePayoutForPartner (some req) (some p) (some tid) now =
      ⟨.success (round (p.commissionEarned * (0.10 : Rat) * 100)),
       some { req with status := "approved", approvedAt := some now,
                       transferId := some tid },
       some p,
       [round (p.commissionEarned * (0.10 : Rat) * 100)]⟩ := by
  have h2 : ¬ p.commissionEarned * (0.10 : Rat) ≤ 0 :=
    (mul_pos hb (by norm_num)).not_le
  simp [approvePayoutForPartner, hp, h2]

theorem requestPayoutForAmbassador_eq (amb : Ambassador) (i acct : String)
    (hacct : amb.connectAccountId = some acct) (hb : 0 < amb.commissionEarned) :
    requestPayoutForAmbassador (some amb) i acct =
      (.success amb.commissionEarned,
       some ⟨i, acct, amb.commissionEarned, "pending", none, none, none⟩) := by
  simp [requestPayoutForAmbassador, hacct, hb.not_le]

theorem korpoAmbassadorCycle_eq (i acct tid : String) (now : Int) (amb : Ambassador)
    (hacct : amb.connectAccountId = some acct) (hb : 0 < amb.commissionEarned) :
    korpoAmbassadorCycle i acct tid now amb =
      some (round (amb.commissionEarned * (0.10 : Rat) * 100), amb) := by
  have happ := approvePayoutForAmbassador_eq_of_pending
    ⟨i, acct, amb.commissionEarned, "pending", none, none, none⟩ amb tid now rfl hb
  unfold korpoAmbassadorCycle
  rw [requestPayoutForAmbassador_eq amb i acct hacct hb]
  simp [happ]

theorem korpoAmbassadorCycles_eq (i acct tid : String) (now : Int) (amb : Ambassador)
    (hacct : amb.connectAccountId = some acct) (hb : 0 < amb.commissionEarned) :
    ∀ n, korpoAmbassadorCycles i acct tid now n amb =
      some (List.replicate n (round (amb.commissionEarned * (0.10 : Rat) * 100)), amb)
  | 0 => rfl
  | n + 1 => by
    rw [korpoAmbassadorCycles, korpoAmbassadorCycle_eq i acct tid now amb hacct hb]
    simp [korpoAmbassadorCycles_eq i acct tid now amb hacct hb n, List.replicate_succ]

/-- C1 (amended): in the main-variant payout approval, a pending request whose
referrer has positive availableBalance b triggers a transfer of exactly
round(b * 100) minor units, b being the balance re-read at approval time, and
the balance is then zeroed; the korpo.js variant instead transfers
round(commissionEarned * 0.10 * 100) minor units and leaves every referrer
field untouched. -/
theorem payoutApproval_transfer_amount_and_zeroing :
    (∀ (req : PayoutRequest) (amb : Ambassador) (tid : String) (now : Int),
       req.status = "pending" → 0 < amb.availableBalance →
       ambassadorApprovePayout (some req) (some amb) (some tid) now =
         ⟨.success (round (amb.availableBalance * 100)),
          some { req with status := "approved", approvedAt := some now,
                          transferId := some tid },
          some { amb with availableBalance := 0, lastPayoutAt := some now },
          [round (amb.availableBalance * 100)]⟩) ∧
    (∀ (req : PayoutRequest) (amb : Ambassador) (tid : String) (now : Int),
       req.status = "pending" → 0 < amb.commissionEarned →
       approvePayoutForAmbassador (some req) (some amb) (some tid) now =
         ⟨.success (round (amb.commissionEarned * (0.10 : Rat) * 100)),
          some { req with status := "approved", approvedAt := some now,
                          transferId := some tid },
          some amb,
          [round (amb.commissionEarned * (0.10 : Rat) * 100)]⟩) :=
  ⟨fun req amb tid now hp hb => ambassadorApprovePayout_eq_of_pending req amb tid now hp hb,
   fun req amb tid now hp hb => approvePayoutForAmbassador_eq_of_pending req amb tid now hp hb⟩

/-- Witness for C1 at the spec scenario b = 150.456: the main-variant approval
transfers 15046 minor units and zeroes the balance. -/
theorem payoutApproval_transfer_amount_and_zeroing_witness :
    scenarioReq.status = "pending" ∧ (0 : Rat) < scenarioAmb.availableBalance ∧
    ambassadorApprovePayout (some scenarioReq) (some scenarioAmb) (some "tr_1") 7 =
      ⟨.success 15046,
       some { scenarioReq with status := "approved", approvedAt := some 7,
                               transferId := some "tr_1" },
       some { scenarioAmb with availableBalance := 0, lastPayoutAt := some 7 },
       [15046]⟩ := by
  refine ⟨rfl, by norm_num [scenarioAmb], ?_⟩
  have h := payoutApproval_transfer_amount_and_zeroing.1 scenarioReq scenarioAmb "tr_1" 7
    rfl (by norm_num [scenarioAmb])
  rw [h]
  have hr : round (scenarioAmb.availableBalance * 100) = (15046 : Int) := by
    norm_num [scenarioAmb, round_eq]
  rw [hr]

/-- Counterexample for C1 as frozen: the korpo.js payout approval of a pending
request whose referrer has availableBalance 150.456 invokes the transfer with
1505 minor units, not round(150.456 * 100) = 15046, and leaves
availableBalance at 150.456 instead of 0. -/
theorem payoutApproval_claim_fails_on_korpo_route :
    scenarioReq.status = "pending" ∧
    scenarioAmb.availableBalance = 150.456 ∧
    (approvePayoutForAmbassador (some scenarioReq) (some scenarioAmb) (some "tr_1") 7).transferCalls
      = [1505] ∧
    (approvePayoutForAmbassador (some scenarioReq) (some scenarioAmb) (some "tr_1") 7).referrer
      = some scenarioAmb ∧
    round ((150.456 : Rat) * 100) = 15046 ∧ (1505 : Int) ≠ 15046 := by
  refine ⟨rfl, rfl, ?_, ?_, by norm_num [round_eq], by norm_num⟩ <;>
    · simp [approvePayoutForAmbassador, scenarioReq, scenarioAmb]
      norm_num [round_eq]

/-- C2: when the external transfer call fails, both payout-approval variants
leave the request document (status still pending, no transfer reference) and
the referrer document completely unchanged; and whenever the main-variant
route changes any document at all, the transfer call succeeded and the route
reported success. -/
theorem payoutApproval_transfer_failure_is_fail_safe :
    (∀ (req? : Option PayoutRequest) (amb? : Option Ambassador) (now : Int),
       (ambassadorApprovePayout req? amb? none now).request = req? ∧
       (ambassadorApprovePayout req? amb? none now).referrer = amb?) ∧
    (∀ (req? : Option PayoutRequest) (amb? : Option Ambassador) (now : Int),
       (approvePayoutForAmbassador req? amb? none now).request = req? ∧
       (approvePayoutForAmbassador req? amb? none now).referrer = amb?) ∧
    (∀ (req? : Option PayoutRequest) (amb? : Option Ambassador)
       (tr : Option String) (now : Int),
       ((ambassadorApprovePayout req? amb? tr now).request = req? ∧
        (ambassadorApprovePayout req? amb? tr now).referrer = amb?) ∨
       ∃ c tid, tr = some tid ∧
         (ambassadorApprovePayout req? amb? tr now).resp = PayoutResp.success c) := by
  refine ⟨?_, ?_, ?_⟩
  · intro req? amb? now
    cases req? with
    | none => simp [ambassadorApprovePayout]
    | some req =>
      cases amb? with
      | none => by_cases h : req.status = "pending" <;> simp [ambassadorApprovePayout, h]
      | some amb =>
        by_cases h : req.status = "pending"
        · by_cases h2 : amb.availableBalance ≤ 0 <;>
            simp [ambassadorApprovePayout, h, h2]
        · simp [ambassadorApprovePayout, h]
  · intro req? amb? now
    cases req? with
    | none => simp [approvePayoutForAmbassador]
    | some req =>
      cases amb? with
      | none => by_cases h : req.status = "pending" <;> simp [approvePayoutForAmbassador, h]
      | some amb =>
        by_cases h : req.status = "pending"
        · by_cases h2 : amb.commissionEarned * (0.10 : Rat) ≤ 0 <;>
            simp [approvePayoutForAmbassador, h, h2]
        · simp [approvePayoutForAmbassador, h]
  · intro req? amb? tr now
    cases req? with
    | none => left; simp [ambassadorApprovePayout]
    | some req =>
      by_cases h : req.status = "pending"
      · cases amb? with
        | none => left; simp [ambassadorApprovePayout, h]
        | some amb =>
          by_cases h2 : amb.availableBalance ≤ 0
          · left; simp [ambassadorApprovePayout, h, h2]
          · cases tr with
            | none => left; simp [ambassadorApprovePayout, h, h2]
            | some tid =>
              right
              exact ⟨round (amb.availableBalance * 100), tid, rfl,
                by simp [ambassadorApprovePayout, h, h2]⟩
      · left; simp [ambassadorApprovePayout, h]

/-- C5: approving the same request twice fails the second time with the
state-conflict response, invokes no second transfer and changes no document,
in both payout-approval variants. -/
theorem payoutApproval_idempotent_safe :
    (∀ (req : PayoutRequest) (amb : Ambassador) (tid : String) (now : Int)
       (amb2? : Option Ambassador) (tr2 : Option String) (now2 : Int),
       req.status = "pending" → 0 < amb.availableBalance →
       ambassadorApprovePayout
           (ambassadorApprovePayout (some req) (some amb) (some tid) now).request
           amb2? tr2 now2 =
         ⟨.alreadyProcessed,
          (ambassadorApprovePayout (some req) (some amb) (some tid) now).request,
          amb2?, []⟩) ∧
    (∀ (req : PayoutRequest) (amb : Ambassador) (tid : String) (now : Int)
       (amb2? : Option Ambassador) (tr2 : Option String) (now2 : Int),
       req.status = "pending" → 0 < amb.commissionEarned →
       approvePayoutForAmbassador
           (approvePayoutForAmbassador (some req) (some amb) (some tid) now).request
           amb2? tr2 now2 =
         ⟨.alreadyProcessed,
          (approvePayoutForAmbassador (some req) (some amb) (some tid) now).request,
          amb2?, []⟩) := by
  constructor
  · intro req amb tid now amb2? tr2 now2 hp hb
    rw [ambassadorApprovePayout_eq_of_pending req amb tid now hp hb]
    simp [ambassadorApprovePayout]
  · intro req amb tid now amb2? tr2 now2 hp hb
    rw [approvePayoutForAmbassador_eq_of_pending req amb tid now hp hb]
    simp [approvePayoutForAmbassador]

/-- Witness for C5 at the concrete scenario documents. -/
theorem payoutApproval_idempotent_safe_witness :
    scenarioReq.status = "pending" ∧ (0 : Rat) < scenarioAmb.availableBalance ∧
    ambassadorApprovePayout
        (ambassadorApprovePayout (some scenarioReq) (some scenarioAmb) (some "tr_1") 7).request
        (some scenarioAmb) (some "tr_2") 9 =
      ⟨.alreadyProcessed,
       (ambassadorApprovePayout (some scenarioReq) (some scenarioAmb) (some "tr_1") 7).request,
       some scenarioAmb, []⟩ :=
  ⟨rfl, by norm_num [scenarioAmb],
   payoutApproval_idempotent_safe.1 scenarioReq scenarioAmb "tr_1" 7
     (some scenarioAmb) (some "tr_2") 9 rfl (by norm_num [scenarioAmb])⟩

/-- C10: in the korpo.js payout routes a successful approval updates only the
payout request (status, approvedAt, transferId); the referrer document is
returned unchanged, so n request-then-approve cycles each transfer
round(commissionEarned * 0.10 * 100) minor units while the stored ambassador
document stays constant; the partner approval route likewise leaves the
partner document unchanged. -/
theorem korpoPayout_mutates_only_request :
    (∀ (i acct tid : String) (now : Int) (n : Nat) (amb : Ambassador),
       amb.connectAccountId = some acct → 0 < amb.commissionEarned →
       korpoAmbassadorCycles i acct tid now n amb =
         some (List.replicate n (round (amb.commissionEarned * (0.10 : Rat) * 100)), amb)) ∧
    (∀ (req : PayoutRequest) (p : Partner) (tid : String) (now : Int),
       req.status = "pending" → 0 < p.commissionEarned →
       approvePayoutForPartner (some req) (some p) (some tid) now =
         ⟨.success (round (p.commissionEarned * (0.10 : Rat) * 100)),
          some { req with status := "approved", approvedAt := some now,
                          transferId := some tid },
          some p,
          [round (p.commissionEarned * (0.10 : Rat) * 100)]⟩) :=
  ⟨fun i acct tid now n amb hacct hb => korpoAmbassadorCycles_eq i acct tid now amb hacct hb n,
   fun req p tid now hp hb => approvePayoutForPartner_eq_of_pending req p tid now hp hb⟩

/-- Witness for C10: three cycles each transfer 1505 minor units and leave
the ambassador document unchanged; the partner approval leaves the partner
document unchanged. -/
theorem korpoPayout_mutates_only_request_witness :
    scenarioAmb.connectAccountId = some "acct_1" ∧ (0 : Rat) < scenarioAmb.commissionEarned ∧
    korpoAmbassadorCycles "amb_1" "acct_1" "tr_1" 7 3 scenarioAmb =
      some ([1505, 1505, 1505], scenarioAmb) ∧
    (approvePayoutForPartner (some scenarioReq) (some scenarioPartner) (some "tr_1") 7).referrer
      = some scenarioPartner := by
  refine ⟨rfl, by norm_num [scenarioAmb], ?_, ?_⟩
  · have h := korpoPayout_mutates_only_request.1 "amb_1" "acct_1" "tr_1" 7 3 scenarioAmb
      rfl (by norm_num [scenarioAmb])
    rw [h]
    have hr : round (scenarioAmb.commissionEarned * (0.10 : Rat) * 100) = (1505 : Int) := by
      norm_num [scenarioAmb, round_eq]
    rw [hr]
    rfl
  · have h := korpoPayout_mutates_only_request.2 scenarioReq scenarioPartner "tr_1" 7
      rfl (by norm_num [scenarioPartner])
    rw [h]

theorem mem_updateFirst_of_find? {α : Type} {p : α → Bool} {f : α → α} :
    ∀ {l : List α} {x y : α}, l.find? p = some x → y ∈ updateFirst p f l →
      y ∈ l ∨ y = f x
  | [], x, y, hf, _ => by simp [List.find?] at hf
  | a :: t, x, y, hf, hy => by
    by_cases hp : p a
    · rw [List.find?_cons_of_pos _ hp] at hf
      injection hf with hf
      subst hf
      rw [updateFirst, if_pos hp] at hy
      rcases List.mem_cons.mp hy with h | h
      · right; exact h
      · left; exact List.mem_cons_of_mem _ h
    · rw [List.find?_cons_of_neg _ (by simpa using hp)] at hf
      rw [updateFirst, if_neg hp] at hy
      rcases List.mem_cons.mp hy with h | h
      · left; rw [h]; exact List.mem_cons_self a t
      · rcases mem_updateFirst_of_find? hf h with h2 | h2
        · left; exact List.mem_cons_of_mem _ h2
        · right; exact h2

/-- Frame shape of the referral redemption route: either the store is left
unchanged, or the found code passed the usage-limit and duplicate checks, its
timesUsed was incremented in place and exactly one tracking record for the
redeeming (userId, code) pair was appended. -/
theorem referralCodeUse_state_shape (userExists : Bool) (st : RefState)
    (u c : String) (amount : Option Rat) (now : Int) :
    (referralCodeUse userExists st u c amount now).state = st ∨
    ∃ r, st.referrals.find? (fun x => x.referralCode == c) = some r ∧
      refLimitReached r = false ∧
      alreadyUsed st.tracking u c = false ∧
      (referralCodeUse userExists st u c amount now).state.referrals =
        updateFirst (fun x => x.referralCode == c)
          (fun x => { x with timesUsed := x.timesUsed + 1 }) st.referrals ∧
      ∃ rec : RefTracking,
        (referralCodeUse userExists st u c amount now).state.tracking =
          st.tracking ++ [rec] ∧
        rec.userId = u ∧ rec.referralCode = c := by
  unfold referralCodeUse
  split
  · left; rfl
  · split
    · left; rfl
    · rename_i r hfind
      split
      · left; rfl
      · split
        · left; rfl
        · split
          · left; rfl
          · split
            · left; rfl
            · split
              · left; rfl
              · rename_i hst hbw haw hlim hdup
                right
                refine ⟨r, hfind, by simpa using hlim, by simpa using hdup, ?_⟩
                repeat' split
                all_goals exact ⟨rfl, _, rfl, rfl, rfl⟩

theorem withinLimit_inc (r : Referral) (hlim : refLimitReached r = false) :
    withinLimit { r with timesUsed := r.timesUsed + 1 } = true := by
  unfold refLimitReached at hlim
  unfold withinLimit
  cases h : r.usageLimit with
  | none => simp [h]
  | some l =>
    rw [h] at hlim
    simp only [decide_eq_false_iff_not, not_le] at hlim
    simp only [h]
    simpa using hlim

theorem referralCodeUse_preserves_usageInvariant (userExists : Bool) (st : RefState)
    (u c : String) (amount : Option Rat) (now : Int)
    (h : usageInvariant st.referrals) :
    usageInvariant (referralCodeUse userExists st u c amount now).state.referrals := by
  rcases referralCodeUse_state_shape userExists st u c amount now with hsh |
    ⟨r, hfind, hlim, _, hrefs, _⟩
  · rw [hsh]; exact h
  · rw [hrefs]
    intro y hy
    rcases mem_updateFirst_of_find? hfind hy with hmem | heq
    · exact h y hmem
    · rw [heq]; exact withinLimit_inc r hlim

theorem referralRuns_preserves_usageInvariant
    (inputs : List (Bool × String × Option Rat × Int)) (c : String) :
    ∀ st : RefState, usageInvariant st.referrals →
      usageInvariant (referralRuns inputs c st).referrals := by
  induction inputs with
  | nil => intro st h; exact h
  | cons i t ih =>
    intro st h
    exact ih _ (referralCodeUse_preserves_usageInvariant i.1 st i.2.1 c i.2.2.1 i.2.2.2 h)

theorem usePromoCode_promos_shape (userExists : Bool) (promos : List Promo)
    (tracking : List Tracking) (partners : List (String × Partner))
    (u c : String) (amount : Rat) (now : Int) :
    (usePromoCode userExists promos tracking partners u c amount now).promos = promos ∨
    ∃ p, promos.find? (fun x => x.code == c) = some p ∧
      promoLimitReached p = false ∧
      (usePromoCode userExists promos tracking partners u c amount now).promos =
        updateFirst (fun x => x.code == c)
          (fun x => { x with timesUsed := x.timesUsed + 1 }) promos := by
  unfold usePromoCode
  split
  · left; rfl
  · split
    · left; rfl
    · rename_i p hfind
      split
      · left; rfl
      · rename_i hlim
        right
        refine ⟨p, hfind, by simpa using hlim, ?_⟩
        repeat' split
        all_goals rfl

theorem promoWithinLimit_inc (p : Promo) (hlim : promoLimitReached p = false) :
    promoWithinLimit { p with timesUsed := p.timesUsed + 1 } = true := by
  unfold promoLimitReached at hlim
  unfold promoWithinLimit
  cases h : p.usageLimit with
  | none => simp [h]
  | some l =>
    rw [h] at hlim
    simp only [decide_eq_false_iff_not, not_le] at hlim
    simp only [h]
    simpa using hlim

theorem usePromoCode_preserves_invariant (userExists : Bool) (promos : List Promo)
    (tracking : List Tracking) (partners : List (String × Partner))
    (u c : String) (amount : Rat) (now : Int)
    (h : promoUsageInvariant promos) :
    promoUsageInvariant
      (usePromoCode userExists promos tracking partners u c amount now).promos := by
  rcases usePromoCode_promos_shape userExists promos tracking partners u c amount now with
    hsh | ⟨p, hfind, hlim, hps⟩
  · rw [hsh]; exact h
  · rw [hps]
    intro y hy
    rcases mem_updateFirst_of_find? hfind hy with hmem | heq
    · exact h y hmem
    · rw [heq]; exact promoWithinLimit_inc p hlim

theorem promoRuns_preserves_invariant (inputs : List (Bool × String × Rat × Int))
    (c : String) :
    ∀ st : List Promo × List Tracking × List (String × Partner),
      promoUsageInvariant st.1 → promoUsageInvariant (promoRuns inputs c st).1 := by
  induction inputs with
  | nil => intro st h; exact h
  | cons i t ih =>
    intro st h
    exact ih _ (usePromoCode_preserves_invariant i.1 st.1 st.2.1 st.2.2 i.2.1 c
      i.2.2.1 i.2.2.2 h)

/-- C4: once a code with non-null usageLimit N has timesUsed at or above N,
an otherwise-valid redemption attempt fails with the usage-limit error and
touches no document; and the bound timesUsed at most N is preserved across
any sequential run of redemptions, so timesUsed never exceeds N. -/
theorem usageLimit_caps_redemptions :
    (∀ (st : RefState) (u c : String) (amount : Option Rat) (now : Int)
       (r : Referral) (N : Int),
       st.referrals.find? (fun x => x.referralCode == c) = some r →
       r.status = "active" → refBeforeWindow r now = false →
       refAfterWindow r now = false → r.usageLimit = some N → N ≤ r.timesUsed →
       referralCodeUse true st u c amount now = ⟨.usageLimitReached, st⟩) ∧
    (∀ (inputs : List (Bool × String × Option Rat × Int)) (c : String)
       (st : RefState), usageInvariant st.referrals →
       usageInvariant (referralRuns inputs c st).referrals) ∧
    (∀ (promos : List Promo) (tracking : List Tracking)
       (partners : List (String × Partner)) (u c : String) (amount : Rat)
       (now : Int) (p : Promo) (N : Int),
       promos.find? (fun x => x.code == c) = some p →
       p.usageLimit = some N → N ≤ p.timesUsed →
       usePromoCode true promos tracking partners u c amount now =
         ⟨.usageLimitExceeded, promos, tracking, partners⟩) ∧
    (∀ (inputs : List (Bool × String × Rat × Int)) (c : String)
       (st : List Promo × List Tracking × List (String × Partner)),
       promoUsageInvariant st.1 → promoUsageInvariant (promoRuns inputs c st).1) := by
  refine ⟨?_, ?_, ?_, ?_⟩
  · intro st u c amount now r N hfind hst hbw haw hN hge
    have hlim : refLimitReached r = true := by
      unfold refLimitReached
      rw [hN]
      simpa using hge
    simp [referralCodeUse, hfind, hst, hbw, haw, hlim]
  · exact fun inputs c st h => referralRuns_preserves_usageInvariant inputs c st h
  · intro promos tracking partners u c amount now p N hfind hN hge
    have hlim : promoLimitReached p = true := by
      unfold promoLimitReached
      rw [hN]
      simpa using hge
    simp [usePromoCode, hfind, hlim]
  · exact fun inputs c st h => promoRuns_preserves_invariant inputs c st h

theorem pairCount_eq_zero_of_not_alreadyUsed (tracking : List RefTracking)
    (u c : String) (h : alreadyUsed tracking u c = false) :
    pairCount tracking u c = 0 := by
  unfold alreadyUsed at h
  unfold pairCount
  rw [List.countP_eq_zero]
  intro t ht hp
  have h2 : tracking.any (fun t => t.userId == u && t.referralCode == c) = true :=
    List.any_eq_true.mpr ⟨t, ht, hp⟩
  rw [h] at h2
  exact Bool.false_ne_true h2

theorem referralCodeUse_preserves_pairCount (userExists : Bool) (st : RefState)
    (u c u2 c2 : String) (amount : Option Rat) (now : Int)
    (h : pairCount st.tracking u2 c2 ≤ 1) :
    pairCount (referralCodeUse userExists st u c amount now).state.tracking u2 c2 ≤ 1 := by
  rcases referralCodeUse_state_shape userExists st u c amount now with hsh |
    ⟨r, _, _, hdup, _, rec, htr, hru, hrc⟩
  · rw [hsh]; exact h
  · rw [htr]
    unfold pairCount at h ⊢
    rw [List.countP_append]
    by_cases hq : (rec.userId == u2 && rec.referralCode == c2) = true
    · simp only [Bool.and_eq_true] at hq
      rcases hq with ⟨hx, hy⟩
      have h1 : u = u2 := hru ▸ eq_of_beq hx
      have h2 : c = c2 := hrc ▸ eq_of_beq hy
      subst h1
      subst h2
      have h0 := pairCount_eq_zero_of_not_alreadyUsed st.tracking u c hdup
      unfold pairCount at h0
      rw [h0]
      simp only [List.countP_cons, List.countP_nil]
      split <;> simp
    · have h0 : List.countP (fun t => t.userId == u2 && t.referralCode == c2) [rec] = 0 := by
        simp only [List.countP_cons, List.countP_nil]
        simp [hq]
      rw [h0]
      simpa using h

/-- C3 (amended): the referral-code redemption route rejects a redeem call for
a (userId, code) pair that already has a tracking record, with the duplicate
error and no document change, and it keeps the at-most-one-record-per-pair
invariant; the promo-code redemption routes perform no duplicate check. -/
theorem referral_duplicate_redemption_rejected :
    (∀ (st : RefState) (u c : String) (amount : Option Rat) (now : Int)
       (r : Referral),
       st.referrals.find? (fun x => x.referralCode == c) = some r →
       r.status = "active" → refBeforeWindow r now = false →
       refAfterWindow r now = false → refLimitReached r = false →
       alreadyUsed st.tracking u c = true →
       referralCodeUse true st u c amount now = ⟨.alreadyRedeemed, st⟩) ∧
    (∀ (userExists : Bool) (st : RefState) (u c u2 c2 : String)
       (amount : Option Rat) (now : Int),
       pairCount st.tracking u2 c2 ≤ 1 →
       pairCount (referralCodeUse userExists st u c amount now).state.tracking u2 c2 ≤ 1) := by
  constructor
  · intro st u c amount now r hfind hst hbw haw hlim hdup
    simp [referralCodeUse, hfind, hst, hbw, haw, hlim, hdup]
  · exact fun userExists st u c u2 c2 amount now h =>
      referralCodeUse_preserves_pairCount userExists st u c u2 c2 amount now h

/-- Witness for C4: the second redemption of a usageLimit-1 code fails with
the usage-limit error and changes nothing, and the invariant holds across a
run. -/
theorem usageLimit_caps_redemptions_witness :
    (limitState.referrals.find? (fun x => x.referralCode == "AMBX") = some limitReferral ∧
     referralCodeUse true limitState "u2" "AMBX" (some 50) 5 =
       ⟨.usageLimitReached, limitState⟩) ∧
    (usageInvariant limitState.referrals ∧
     usageInvariant (referralRuns [(true, "u2", some 50, 5)] "AMBX" limitState).referrals) ∧
    (usePromoCode true [⟨some "p1", "PROMO1", some 20, none, none, none, some 1, 1, "active"⟩]
        [] [] "u2" "PROMO1" 100 5 =
      ⟨.usageLimitExceeded, [⟨some "p1", "PROMO1", some 20, none, none, none, some 1, 1, "active"⟩],
       [], []⟩) ∧
    promoUsageInvariant
      (promoRuns [(true, "u1", 100, 3)] "PROMO1"
        ([⟨some "p1", "PROMO1", some 20, none, none, none, some 10, 0, "active"⟩], [], [])).1 :=
  ⟨⟨rfl, usageLimit_caps_redemptions.1 limitState "u2" "AMBX" (some 50) 5 limitReferral 1
      rfl rfl rfl rfl rfl (by decide)⟩,
   ⟨by unfold usageInvariant; decide,
    usageLimit_caps_redemptions.2.1 [(true, "u2", some 50, 5)] "AMBX" limitState
      (by unfold usageInvariant; decide)⟩,
   usageLimit_caps_redemptions.2.2.1 [⟨some "p1", "PROMO1", some 20, none, none, none, some 1,
       1, "active"⟩] [] [] "u2" "PROMO1" 100 5
     ⟨some "p1", "PROMO1", some 20, none, none, none, some 1, 1, "active"⟩ 1 rfl rfl
     (by decide),
   usageLimit_caps_redemptions.2.2.2 [(true, "u1", 100, 3)] "PROMO1"
     ([⟨some "p1", "PROMO1", some 20, none, none, none, some 10, 0, "active"⟩], [], [])
     (by unfold promoUsageInvariant; decide)⟩

/-- Witness for C3: a duplicate redemption by u1 is rejected with no change,
and the pair invariant is preserved at a concrete state. -/
theorem referral_duplicate_redemption_rejected_witness :
    (alreadyUsed limitState.tracking "u1" "AMBX" = true ∧
     referralCodeUse true ⟨[⟨some "amb_1", "AMBX", "active", some 0, some 1000000, some 5, 1⟩],
         limitState.tracking, limitState.ambassadors⟩ "u1" "AMBX" (some 50) 5 =
       ⟨.alreadyRedeemed, ⟨[⟨some "amb_1", "AMBX", "active", some 0, some 1000000, some 5, 1⟩],
         limitState.tracking, limitState.ambassadors⟩⟩) ∧
    (pairCount limitState.tracking "u1" "AMBX" ≤ 1 ∧
     pairCount (referralCodeUse true limitState "u2" "AMBX" (some 50) 5).state.tracking
       "u1" "AMBX" ≤ 1) :=
  ⟨⟨rfl, referral_duplicate_redemption_rejected.1 _ "u1" "AMBX" (some 50) 5
      ⟨some "amb_1", "AMBX", "active", some 0, some 1000000, some 5, 1⟩
      rfl rfl rfl rfl rfl rfl⟩,
   ⟨by decide, referral_duplicate_redemption_rejected.2 true limitState "u2" "AMBX"
      "u1" "AMBX" (some 50) 5 (by decide)⟩⟩

/-- Counterexample for C3 as frozen: the korpo.js promo redemption route lets
the same user redeem the same code twice; both calls succeed and two tracking
records exist for the pair afterwards. -/
theorem promo_redemption_permits_duplicates :
    (usePromoCode true [dupPromo] [] [("p1", dupPartner)] "u1" "PROMO1" 100 0).resp =
      .success 80 24 56 ∧
    (usePromoCode true
        (usePromoCode true [dupPromo] [] [("p1", dupPartner)] "u1" "PROMO1" 100 0).promos
        (usePromoCode true [dupPromo] [] [("p1", dupPartner)] "u1" "PROMO1" 100 0).tracking
        (usePromoCode true [dupPromo] [] [("p1", dupPartner)] "u1" "PROMO1" 100 0).partners
        "u1" "PROMO1" 100 1).resp = .success 80 24 56 ∧
    promoPairCount
      (usePromoCode true
        (usePromoCode true [dupPromo] [] [("p1", dupPartner)] "u1" "PROMO1" 100 0).promos
        (usePromoCode true [dupPromo] [] [("p1", dupPartner)] "u1" "PROMO1" 100 0).tracking
        (usePromoCode true [dupPromo] [] [("p1", dupPartner)] "u1" "PROMO1" 100 0).partners
        "u1" "PROMO1" 100 1).tracking "u1" "PROMO1" = 2 := by
  refine ⟨?_, ?_, ?_⟩ <;>
    simp [usePromoCode, dupPromo, dupPartner, promoPairCount, partnerSharePercentKorpo,
      lookupDoc, updateFirst, updateDocIn, promoLimitReached, List.countP_cons] <;>
    norm_num

theorem usePromoCode_limit_resp_iff (promos : List Promo) (tracking : List Tracking)
    (partners : List (String × Partner)) (u c : String) (amount : Rat) (now : Int)
    (p : Promo) (hfind : promos.find? (fun x => x.code == c) = some p) :
    (usePromoCode true promos tracking partners u c amount now).resp = .usageLimitExceeded ↔
      promoLimitReached p = true := by
  constructor
  · intro h
    by_cases hl : promoLimitReached p = true
    · exact hl
    · have hl2 : promoLimitReached p = false := by simpa using hl
      simp [usePromoCode, hfind, hl2] at h
  · intro hl
    simp [usePromoCode, hfind, hl]

theorem referralCodeUse_limitReached_find (userExists : Bool) (st : RefState)
    (u c : String) (amount : Option Rat) (now : Int)
    (h : (referralCodeUse userExists st u c amount now).resp = .usageLimitReached) :
    ∃ r, st.referrals.find? (fun x => x.referralCode == c) = some r ∧
      refLimitReached r = true := by
  unfold referralCodeUse at h
  split at h
  · simp at h
  · split at h
    · simp at h
    · rename_i r hfind
      split at h
      · simp at h
      · split at h
        · simp at h
        · split at h
          · simp at h
          · split at h
            · rename_i hlim
              exact ⟨r, hfind, by simpa using hlim⟩
            · split at h
              · simp at h
              · repeat' split at h
                all_goals simp at h

/-- C6 (amended): the redemption routes enforce the usage-limit failure only
for a non-null usageLimit, failing exactly when timesUsed has reached it; the
korpo.js validate route compares timesUsed against usageLimit without a null
guard, so (by the JS null-to-0 coercion) a code with null usageLimit always
fails validation with the usage-limit error. -/
theorem usageLimit_enforced_only_when_nonNull :
    (∀ (userExists : Bool) (promos : List Promo) (tracking : List Tracking)
       (partners : List (String × Partner)) (u c : String) (amount : Rat)
       (now : Int) (p : Promo),
       promos.find? (fun x => x.code == c) = some p → p.usageLimit = none →
       (usePromoCode userExists promos tracking partners u c amount now).resp ≠
         .usageLimitExceeded) ∧
    (∀ (promos : List Promo) (tracking : List Tracking)
       (partners : List (String × Partner)) (u c : String) (amount : Rat)
       (now : Int) (p : Promo) (N : Int),
       promos.find? (fun x => x.code == c) = some p → p.usageLimit = some N →
       ((usePromoCode true promos tracking partners u c amount now).resp =
          .usageLimitExceeded ↔ N ≤ p.timesUsed)) ∧
    (∀ (userExists : Bool) (st : RefState) (u c : String) (amount : Option Rat)
       (now : Int) (r : Referral),
       st.referrals.find? (fun x => x.referralCode == c) = some r →
       r.usageLimit = none →
       (referralCodeUse userExists st u c amount now).resp ≠ .usageLimitReached) ∧
    (∀ (promos : List Promo) (c : String) (now : Int) (p : Promo),
       promos.find? (fun x => x.code == c) = some p → p.usageLimit = none →
       ¬(now < jsDate p.validFrom ∨ now > jsDate p.validTo) → 0 ≤ p.timesUsed →
       validatePromoCode promos c now = .usageLimitReached) := by
  refine ⟨?_, ?_, ?_, ?_⟩
  · intro userExists promos tracking partners u c amount now p hfind hnull
    cases userExists with
    | false => simp [usePromoCode]
    | true =>
      have hl : promoLimitReached p = false := by simp [promoLimitReached, hnull]
      intro h
      have := (usePromoCode_limit_resp_iff promos tracking partners u c amount now p hfind).mp h
      rw [hl] at this
      exact Bool.false_ne_true this
  · intro promos tracking partners u c amount now p N hfind hN
    rw [usePromoCode_limit_resp_iff promos tracking partners u c amount now p hfind]
    unfold promoLimitReached
    rw [hN]
    simp
  · intro userExists st u c amount now r hfind hnull h
    rcases referralCodeUse_limitReached_find userExists st u c amount now h with
      ⟨r2, hfind2, hl2⟩
    rw [hfind] at hfind2
    injection hfind2 with he
    subst he
    simp [refLimitReached, hnull] at hl2
  · intro promos c now p hfind hnull hwin ht0
    have hge : jsGeOpt p.timesUsed p.usageLimit = true := by
      simp [jsGeOpt, hnull, ht0]
    simp [validatePromoCode, hfind, hwin, hge]

/-- Witness for C6 at concrete inputs: null limit never trips the redemption
check, a reached non-null limit does, and the validate route fails the
null-limit code. -/
theorem usageLimit_enforced_only_when_nonNull_witness :
    (nolimitPromo.usageLimit = none ∧
     (usePromoCode true [nolimitPromo] [] [] "u1" "NOLIMIT" 100 500).resp ≠
       .usageLimitExceeded) ∧
    ((usePromoCode true [dupPromo] [] [] "u1" "PROMO1" 100 0).resp =
       .usageLimitExceeded ↔ (10 : Int) ≤ dupPromo.timesUsed) ∧
    ((referralCodeUse true ⟨[⟨none, "RNOLIM", "active", none, none, none, 7⟩], [], []⟩
        "u1" "RNOLIM" (some 5) 0).resp ≠ .usageLimitReached) ∧
    validatePromoCode [nolimitPromo] "NOLIMIT" 500 = .usageLimitReached :=
  ⟨⟨rfl, usageLimit_enforced_only_when_nonNull.1 true [nolimitPromo] [] [] "u1" "NOLIMIT"
      100 500 nolimitPromo rfl rfl⟩,
   usageLimit_enforced_only_when_nonNull.2.1 [dupPromo] [] [] "u1" "PROMO1" 100 0 dupPromo
     10 rfl rfl,
   usageLimit_enforced_only_when_nonNull.2.2.1 true
     ⟨[⟨none, "RNOLIM", "active", none, none, none, 7⟩], [], []⟩ "u1" "RNOLIM" (some 5) 0
     ⟨none, "RNOLIM", "active", none, none, none, 7⟩ rfl rfl,
   usageLimit_enforced_only_when_nonNull.2.2.2 [nolimitPromo] "NOLIMIT" 500 nolimitPromo
     rfl rfl (by decide) (by decide)⟩

/-- Counterexample for C6 as frozen: the korpo.js validate route fails a code
whose usageLimit is null (and whose window is valid, timesUsed = 0) with the
usage-limit error, although the claim says that failure reason requires a
non-null usageLimit. -/
theorem validate_nullLimit_fails_counterexample :
    nolimitPromo.usageLimit = none ∧ nolimitPromo.timesUsed = 0 ∧
    validatePromoCode [nolimitPromo] "NOLIMIT" 500 = .usageLimitReached :=
  ⟨rfl, rfl, by decide⟩

theorem usePromoCodeMain_success_eq (userExists : Bool) (promos : List Promo)
    (tracking : List Tracking) (partners : List (String × Partner))
    (u c : String) (amount : Rat) (now : Int) (p : Promo) (fa pr cr : Rat)
    (hfind : promos.find? (fun x => x.code == c) = some p)
    (h : (usePromoCodeMain userExists promos tracking partners u c amount now).resp =
      .success fa pr cr) :
    fa = amount - amount * p.discountRate.getD 0 ∧
    pr = fa * partnerShareMain partners p.partnerId ∧
    cr = fa - pr := by
  unfold usePromoCodeMain at h
  split at h
  · simp at h
  · split at h
    · simp at h
    · rename_i p2 hfind2
      rw [hfind] at hfind2
      injection hfind2 with he
      subst he
      split at h
      · simp at h
      · simp only [UseResp.success.injEq] at h
        obtain ⟨h1, h2, h3⟩ := h
        subst h1
        subst h2
        subst h3
        exact ⟨rfl, rfl, rfl⟩

theorem usePromoCode_success_eq (userExists : Bool) (promos : List Promo)
    (tracking : List Tracking) (partners : List (String × Partner))
    (u c : String) (amount : Rat) (now : Int) (p : Promo) (fa pr cr : Rat)
    (hfind : promos.find? (fun x => x.code == c) = some p)
    (h : (usePromoCode userExists promos tracking partners u c amount now).resp =
      .success fa pr cr) :
    fa = amount - amount * p.discountPercentage.getD 0 / 100 ∧
    pr = fa * partnerSharePercentKorpo partners p.partnerId / 100 ∧
    cr = fa - pr := by
  unfold usePromoCode at h
  split at h
  · simp at h
  · split at h
    · simp at h
    · rename_i p2 hfind2
      rw [hfind] at hfind2
      injection hfind2 with he
      subst he
      split at h
      · simp at h
      · simp only [UseResp.success.injEq] at h
        obtain ⟨h1, h2, h3⟩ := h
        subst h1
        subst h2
        subst h3
        exact ⟨rfl, rfl, rfl⟩

/-- C7: every successful redemption splits the post-discount revenue as
referrerRevenue = finalAmount * rate and platformRevenue = finalAmount -
referrerRevenue, where the rate is the resolved commission (record value, or
the role fallback) - in the korpo.js route the stored percentage divided by
100 - and a rate inside [0, 1] with a non-negative finalAmount yields
0 <= referrerRevenue <= finalAmount and platformRevenue >= 0. -/
theorem revenueSplit_commission_fraction :
    (∀ (userExists : Bool) (promos : List Promo) (tracking : List Tracking)
       (partners : List (String × Partner)) (u c : String) (amount : Rat)
       (now : Int) (p : Promo) (fa pr cr : Rat),
       promos.find? (fun x => x.code == c) = some p →
       (usePromoCodeMain userExists promos tracking partners u c amount now).resp =
         .success fa pr cr →
       pr = fa * partnerShareMain partners p.partnerId ∧ cr = fa - pr ∧
       (0 ≤ partnerShareMain partners p.partnerId →
        partnerShareMain partners p.partnerId ≤ 1 → 0 ≤ fa →
        0 ≤ pr ∧ pr ≤ fa ∧ 0 ≤ cr)) ∧
    (∀ (userExists : Bool) (promos : List Promo) (tracking : List Tracking)
       (partners : List (String × Partner)) (u c : String) (amount : Rat)
       (now : Int) (p : Promo) (fa pr cr : Rat),
       promos.find? (fun x => x.code == c) = some p →
       (usePromoCode userExists promos tracking partners u c amount now).resp =
         .success fa pr cr →
       pr = fa * (partnerSharePercentKorpo partners p.partnerId / 100) ∧ cr = fa - pr ∧
       (0 ≤ partnerSharePercentKorpo partners p.partnerId / 100 →
        partnerSharePercentKorpo partners p.partnerId / 100 ≤ 1 → 0 ≤ fa →
        0 ≤ pr ∧ pr ≤ fa ∧ 0 ≤ cr)) := by
  constructor
  · intro userExists promos tracking partners u c amount now p fa pr cr hfind hsucc
    obtain ⟨_, hpr, hcr⟩ :=
      usePromoCodeMain_success_eq userExists promos tracking partners u c amount now
        p fa pr cr hfind hsucc
    subst hpr
    subst hcr
    refine ⟨rfl, rfl, fun h0 h1 hf => ?_⟩
    exact ⟨mul_nonneg hf h0, mul_le_of_le_one_right hf h1,
      sub_nonneg.mpr (mul_le_of_le_one_right hf h1)⟩
  · intro userExists promos tracking partners u c amount now p fa pr cr hfind hsucc
    obtain ⟨_, hpr, hcr⟩ :=
      usePromoCode_success_eq userExists promos tracking partners u c amount now
        p fa pr cr hfind hsucc
    have hpr2 : pr = fa * (partnerSharePercentKorpo partners p.partnerId / 100) := by
      rw [hpr, mul_div_assoc]
    subst hcr
    refine ⟨hpr2, rfl, fun h0 h1 hf => ?_⟩
    rw [hpr2]
    exact ⟨mul_nonneg hf h0, mul_le_of_le_one_right hf h1,
      sub_nonneg.mpr (hpr2 ▸ mul_le_of_le_one_right hf h1)⟩

/-- Witness for C7 at the spec scenario: amount 100, discount 0.2, commission
0.3 gives finalAmount 80, referrerRevenue 24, platformRevenue 56. -/
theorem revenueSplit_commission_fraction_witness :
    ((usePromoCodeMain true [scenarioPromo] [] [("p1", dupPartner)] "u1" "PROMO1" 100 5).resp
       = .success 80 24 56) ∧
    ((24 : Rat) = 80 * partnerShareMain [("p1", dupPartner)] scenarioPromo.partnerId ∧
     (56 : Rat) = 80 - 24 ∧
     (0 ≤ (24 : Rat) ∧ (24 : Rat) ≤ 80 ∧ 0 ≤ (56 : Rat))) := by
  have hsucc : (usePromoCodeMain true [scenarioPromo] [] [("p1", dupPartner)] "u1"
      "PROMO1" 100 5).resp = .success 80 24 56 := by
    simp [usePromoCodeMain, scenarioPromo, dupPartner, partnerShareMain, lookupDoc,
      promoLimitReached, updateFirst, updateDocIn]
    norm_num
  refine ⟨hsucc, ?_⟩
  obtain ⟨h1, h2, h3⟩ := revenueSplit_commission_fraction.1 true [scenarioPromo] []
    [("p1", dupPartner)] "u1" "PROMO1" 100 5 scenarioPromo 80 24 56 rfl hsucc
  exact ⟨h1, h2, h3 (by norm_num [partnerShareMain, lookupDoc, dupPartner, scenarioPromo])
    (by norm_num [partnerShareMain, lookupDoc, dupPartner, scenarioPromo]) (by norm_num)⟩

/-- C8: approval-time activation never overwrites a still-valid validity
window: in the ambassador route the window is reset to now / now + 100 days
exactly when a bound is unset or the window has expired, and in the partner
route validFrom / validTo are written only when the existing field is unset
(hence, in particular, only when the window is unset or expired). -/
theorem activation_preserves_still_valid_window :
    (∀ (r : Referral) (now f t : Int), r.validFrom = some f → r.validTo = some t →
       ¬ t < now →
       (ambassadorApproveReferralUpdate r now).validFrom = some f ∧
       (ambassadorApproveReferralUpdate r now).validTo = some t ∧
       (ambassadorApproveReferralUpdate r now).status = "active") ∧
    (∀ (r : Referral) (now : Int),
       (r.validFrom = none ∨ r.validTo = none ∨ ∃ t, r.validTo = some t ∧ t < now) →
       (ambassadorApproveReferralUpdate r now).validFrom = some now ∧
       (ambassadorApproveReferralUpdate r now).validTo = some (now + day100)) ∧
    (∀ (promo : Promo) (pc : String) (now : Int) (f : Int), promo.validFrom = some f →
       (partnerApprovePromoUpdate promo pc now).validFrom = some f) ∧
    (∀ (promo : Promo) (pc : String) (now : Int) (t : Int), promo.validTo = some t →
       (partnerApprovePromoUpdate promo pc now).validTo = some t) ∧
    (∀ (promo : Promo) (pc : String) (now : Int),
       ((partnerApprovePromoUpdate promo pc now).validFrom ≠ promo.validFrom →
         promo.validFrom = none) ∧
       ((partnerApprovePromoUpdate promo pc now).validTo ≠ promo.validTo →
         promo.validTo = none)) := by
  refine ⟨?_, ?_, ?_, ?_, ?_⟩
  · intro r now f t hf ht hlt
    simp [ambassadorApproveReferralUpdate, hf, ht, hlt]
  · intro r now hcase
    rcases hcase with hf | ht | ⟨t, ht, hlt⟩
    · cases h2 : r.validTo <;> simp [ambassadorApproveReferralUpdate, hf, h2]
    · cases h2 : r.validFrom <;> simp [ambassadorApproveReferralUpdate, ht, h2]
    · cases h2 : r.validFrom <;> simp [ambassadorApproveReferralUpdate, ht, h2, hlt]
  · intro promo pc now f hf
    simp [partnerApprovePromoUpdate, hf]
  · intro promo pc now t ht
    simp [partnerApprovePromoUpdate, ht]
  · intro promo pc now
    constructor
    · intro hne
      cases h : promo.validFrom with
      | none => rfl
      | some f => exact absurd (by simp [partnerApprovePromoUpdate, h]) hne
    · intro hne
      cases h : promo.validTo with
      | none => rfl
      | some t => exact absurd (by simp [partnerApprovePromoUpdate, h]) hne

/-- Witness for C8 at concrete windows: a still-valid window survives
re-approval, an expired one is reset, and the partner update keeps set
bounds. -/
theorem activation_preserves_still_valid_window_witness :
    ((ambassadorApproveReferralUpdate windowReferral 3000).validFrom = some 100 ∧
     (ambassadorApproveReferralUpdate windowReferral 3000).validTo = some 5000 ∧
     (ambassadorApproveReferralUpdate windowReferral 3000).status = "active") ∧
    ((ambassadorApproveReferralUpdate windowReferral 9000).validFrom = some 9000 ∧
     (ambassadorApproveReferralUpdate windowReferral 9000).validTo = some (9000 + day100)) ∧
    (partnerApprovePromoUpdate scenarioPromo "PROMO1" 9000).validFrom = some 0 ∧
    (partnerApprovePromoUpdate scenarioPromo "PROMO1" 9000).validTo = some 100000 :=
  ⟨activation_preserves_still_valid_window.1 windowReferral 3000 100 5000 rfl rfl
     (by decide),
   activation_preserves_still_valid_window.2.1 windowReferral 9000
     (Or.inr (Or.inr ⟨5000, rfl, by decide⟩)),
   activation_preserves_still_valid_window.2.2.1 scenarioPromo "PROMO1" 9000 0 rfl,
   activation_preserves_still_valid_window.2.2.2.1 scenarioPromo "PROMO1" 9000 100000 rfl⟩

theorem partnerGenLoop_some_not_mem (existing : List String) (cands : Nat → String) :
    ∀ (fuel : Nat) (code : String) (i : Nat) (c : String),
      partnerGenLoop existing cands code i fuel = some c → c ∉ existing
  | 0, code, i, c, h => by simp [partnerGenLoop] at h
  | fuel + 1, code, i, c, h => by
    rw [partnerGenLoop] at h
    split at h
    · split at h
      · exact partnerGenLoop_some_not_mem existing cands fuel "" _ c h
      · rename_i hmem2
        injection h with h
        subst h
        exact hmem2
    · split at h
      · exact partnerGenLoop_some_not_mem existing cands fuel "" _ c h
      · rename_i hmem2
        injection h with h
        subst h
        exact hmem2

theorem partnerGenLoop_none_of_all_mem (existing : List String) (cands : Nat → String) :
    ∀ (fuel i : Nat), (∀ j, j < i + fuel → cands j ∈ existing) →
      partnerGenLoop existing cands "" i fuel = none
  | 0, i, _ => rfl
  | fuel + 1, i, h => by
    rw [partnerGenLoop]
    have hmem : cands i ∈ existing := h i (by omega)
    simp only [if_pos rfl, reduceIte, hmem]
    exact partnerGenLoop_none_of_all_mem existing cands fuel (i + 1)
      (fun j hj => h j (by omega))

theorem ambassadorGenIter_stuck (existing : List String) (suffix : String)
    (h : ("AMB" ++ suffix) ∈ existing) :
    ∀ n, ambassadorGenIter existing suffix false (.running "") n = .running ""
  | 0 => rfl
  | n + 1 => by
    rw [ambassadorGenIter, ambassadorGenIter_stuck existing suffix h n]
    simp [ambassadorGenStep, h]

/-- C9 (amended): the partner code-generation loop is bounded at 5 attempts,
returning a collision-free candidate on success and the exhaustion failure
when all synthesized candidates collide; the ambassador code-generation loop
has no attempt bound, and because its synthesized candidate is deterministic
a single collision makes it loop forever. -/
theorem codeGeneration_partner_bounded_ambassador_unbounded :
    (∀ (existing : List String) (preferred : Option String) (cands : Nat → String)
       (c : String), partnerGenerateCode existing preferred cands = some c →
       c ∉ existing) ∧
    (∀ (existing : List String) (cands : Nat → String),
       (∀ j, j < 5 → cands j ∈ existing) →
       partnerGenerateCode existing none cands = none) ∧
    (∀ (existing : List String) (suffix : String), ("AMB" ++ suffix) ∈ existing →
       ∀ n, ambassadorGenIter existing suffix false (.running "") n = .running "") :=
  ⟨fun existing preferred cands c h =>
     partnerGenLoop_some_not_mem existing cands 5 (preferred.getD "") 0 c h,
   fun existing cands h => partnerGenLoop_none_of_all_mem existing cands 5 0 h,
   fun existing suffix h n => ambassadorGenIter_stuck existing suffix h n⟩

/-- Witness for C9 at concrete inputs: a successful partner generation is
collision-free, five colliding candidates exhaust the bound, and a colliding
ambassador candidate is still looping after 7 iterations. -/
theorem codeGeneration_partner_bounded_ambassador_unbounded_witness :
    (partnerGenerateCode ["PRMA1"] none (fun i => if i = 0 then "PRMA1" else "PRMB2") =
       some "PRMB2" ∧ "PRMB2" ∉ ["PRMA1"]) ∧
    ((∀ j, j < 5 → (fun _ : Nat => "PRMA1") j ∈ ["PRMA1"]) ∧
     partnerGenerateCode ["PRMA1"] none (fun _ => "PRMA1") = none) ∧
    (("AMB" ++ "USER") ∈ ["AMBUSER"] ∧
     ambassadorGenIter ["AMBUSER"] "USER" false (.running "") 7 = .running "") :=
  ⟨⟨by decide, codeGeneration_partner_bounded_ambassador_unbounded.1 ["PRMA1"] none
      (fun i => if i = 0 then "PRMA1" else "PRMB2") "PRMB2" (by decide)⟩,
   ⟨by decide, codeGeneration_partner_bounded_ambassador_unbounded.2.1 ["PRMA1"]
      (fun _ => "PRMA1") (by decide)⟩,
   ⟨by decide, codeGeneration_partner_bounded_ambassador_unbounded.2.2 ["AMBUSER"] "USER"
      (by decide) 7⟩⟩

/-- Counterexample for C9 as frozen: the ambassador code-generation loop, on a
corpus already containing its deterministic candidate AMBUSER, is still
looping after 6 and after 40 iterations - beyond any 5-attempt bound and
with no exhaustion failure. -/
theorem ambassadorGeneration_exceeds_retry_bound :
    ambassadorGenIter ["AMBUSER"] "USER" false (.running "") 6 = .running "" ∧
    ambassadorGenIter ["AMBUSER"] "USER" false (.running "") 40 = .running "" :=
  ⟨by decide, by decide⟩
